import Mathlib

set_option maxRecDepth 8000

/-!
Shallow embedding of the position-fusion core of the pwnagotchi GPSD-ng
plugin (src/gpsd-ng.py): the `Position` entity, the `GPSD` engine state with
device arbitration, the last-known-position fallback, the elevation cache
with ring sampling, wifi triangulation, the plugin hook events and the
read-loop failure counter.

Modelling conventions:
- Python floats are `PFloat`: either NaN or a rational. Infinities never
  arise in the modelled flows (gps.isfinite only has to separate NaN).
- `datetime` values are rationals counting seconds; `datetime.now()` becomes
  an explicit `now : ℚ` argument threaded through each operation.
- Python dicts are insertion-ordered association lists (`alookup`/`aset`),
  matching dict iteration order, which the arbitration sort depends on.
- External collaborators (geopy geodesic distance/destination, gpsd socket
  I/O outcomes, subprocess results) are parameters of the functions that
  call them; persistence (StatusFile writes) and logging are stateless
  side effects and are dropped.
-/

inductive PFloat where
  | nan : PFloat
  | val : ℚ → PFloat
deriving DecidableEq, Repr

def PFloat.isnan : PFloat → Bool
  | .nan => true
  | .val _ => false

/-- gps.isfinite / math.isfinite restricted to the NaN-vs-finite distinction. -/
def PFloat.isfinite (x : PFloat) : Bool := !x.isnan

/-- Python `<` on floats: false whenever a NaN is involved. -/
def PFloat.flt : PFloat → PFloat → Bool
  | .val a, .val b => decide (a < b)
  | _, _ => false

/-- Python `>` on floats. -/
def PFloat.fgt (a b : PFloat) : Bool := PFloat.flt b a

def PFloat.add : PFloat → PFloat → PFloat
  | .val a, .val b => .val (a + b)
  | _, _ => .nan

def PFloat.halve : PFloat → PFloat
  | .val a => .val (a / 2)
  | .nan => .nan

/-- Python round() to an integer: nearest, ties to even, on the idealized
rational value of the float. -/
def roundHalfEven (x : ℚ) : ℤ :=
  let n := ⌊x⌋
  if x - n < 1 / 2 then n
  else if 1 / 2 < x - n then n + 1
  else if n % 2 = 0 then n else n + 1

/-- Python round(x, 4). -/
def roundQ4 (x : ℚ) : ℚ := (roundHalfEven (x * 10000) : ℚ) / 10000

def PFloat.round4 : PFloat → PFloat
  | .nan => .nan
  | .val q => .val (roundQ4 q)

/-- Lookup in an insertion-ordered association list (Python dict read). -/
def alookup {K V : Type} [DecidableEq K] : List (K × V) → K → Option V
  | [], _ => none
  | (k1, v) :: t, k => if k1 = k then some v else alookup t k

/-- Python `key in dict`. -/
def acontains {K V : Type} [DecidableEq K] (l : List (K × V)) (k : K) : Bool :=
  (alookup l k).isSome

/-- Python `dict[key] = value`: replace in place, or append a new key. -/
def aset {K V : Type} [DecidableEq K] : List (K × V) → K → V → List (K × V)
  | [], k, v => [(k, v)]
  | (k1, v1) :: t, k, v => if k1 = k then (k, v) :: t else (k1, v1) :: aset t k v

/-! Validity bit flags of the gpsd python client library (external
dependency of src/gpsd-ng.py). Only their distinctness matters. -/

def ONLINE_SET : ℕ := 2
def LATLON_SET : ℕ := 16
def ALTITUDE_SET : ℕ := 32
def SPEED_SET : ℕ := 64
def MODE_SET : ℕ := 1024
def SATELLITE_SET : ℕ := 32768

/-- Position (src/gpsd-ng.py, class Position): one device's latest fix.
The satellite list, the FIXES label table and the pure formatting/plotting
methods are omitted: no claim mentions them. -/
structure Position where
  device : String
  dummy : Bool := false
  last_update : Option ℚ := none
  latitude : PFloat := .nan
  longitude : PFloat := .nan
  altitude : PFloat := .nan
  speed : PFloat := .nan
  accuracy : PFloat := .nan
  mode : ℤ := 0
  last_fix : Option ℚ := none
deriving DecidableEq, Repr

/-- Position.is_valid: finite coordinates and a 2D-or-better mode. -/
def Position.is_valid (p : Position) : Bool :=
  p.latitude.isfinite && p.longitude.isfinite && decide (p.mode ≥ 2)

/-- Position.__lt__: when both last_fix are set, lexicographic comparison of
(dummy, mode, -last_fix.timestamp()), with False < True as 0 < 1; otherwise
False. -/
def Position.pylt (a b : Position) : Bool :=
  match a.last_fix, b.last_fix with
  | some ta, some tb =>
      let da : ℕ := if a.dummy then 1 else 0
      let db : ℕ := if b.dummy then 1 else 0
      decide (da < db) ||
        (decide (da = db) &&
          (decide (a.mode < b.mode) ||
            (decide (a.mode = b.mode) && decide (-ta < -tb))))
  | _, _ => false

/-- Position.set_attr: apply the field write `write` only if `flag` is
present in `valid`, refreshing last_update. -/
def Position.set_attr (p : Position) (write : Position → Position)
    (valid flag : ℕ) (now : ℚ) : Position :=
  if flag &&& valid ≠ 0 then { write p with last_update := some now } else p

/-- The fields of a gps.gpsfix report that update_fix reads. -/
structure Gpsfix where
  mode : ℤ := 0
  latitude : PFloat := .nan
  longitude : PFloat := .nan
  speed : PFloat := .nan
deriving DecidableEq, Repr

/-- Position.update_fix: ignore reports without MODE_SET; on a 2D/3D fix
refresh last_fix, write lat/long/speed/mode gated by their validity bits and
set accuracy to 50; on a below-2D fix, reset the coordinate fields to NaN
unless the existing fix is younger than 10 seconds. -/
def Position.update_fix (p : Position) (fix : Gpsfix) (valid : ℕ) (now : ℚ) :
    Position :=
  if MODE_SET &&& valid = 0 then p
  else if fix.mode ≥ 2 then
    let p1 := { p with last_fix := some now }
    let p2 := p1.set_attr (fun q => { q with latitude := fix.latitude }) valid LATLON_SET now
    let p3 := p2.set_attr (fun q => { q with longitude := fix.longitude }) valid LATLON_SET now
    let p4 := p3.set_attr (fun q => { q with speed := fix.speed }) valid SPEED_SET now
    let p5 := p4.set_attr (fun q => { q with mode := fix.mode }) valid MODE_SET now
    { p5 with accuracy := .val 50 }
  else if (match p.last_fix with
           | some t => decide (now - t < 10)
           | none => false) then p
  else { p with latitude := .nan, longitude := .nan, altitude := .nan,
                speed := .nan, accuracy := .nan }

/-- Position.is_old. -/
def Position.is_old (date : Option ℚ) (max_seconds : ℕ) (now : ℚ) :
    Option Bool :=
  match date with
  | none => none
  | some t => some (decide (now - t > (max_seconds : ℚ)))

/-- Position.is_fix_old. -/
def Position.is_fix_old (p : Position) (max_seconds : ℕ) (now : ℚ) :
    Option Bool :=
  Position.is_old p.last_fix max_seconds now

/-- One entry of the wifi position table: dict(latitude=.., longitude=..,
altitude=..). -/
structure WifiEntry where
  latitude : PFloat
  longitude : PFloat
  altitude : PFloat
deriving DecidableEq, Repr

/-- The state owned by the GPSD engine thread (src/gpsd-ng.py, class GPSD).
The gpsd session handle, the lock, the thread/exit machinery and the
StatusFile handles are external I/O and are not part of the model. -/
structure GPSDState where
  gpsdhost : Option String := none
  gpsdport : Option ℤ := none
  fix_timeout : ℕ := 120
  update_timeout : ℕ := 120
  main_device : Option String := none
  positions : List (String × Position) := []
  last_position : Option Position := none
  wifi_positions : List (String × WifiEntry) := []
  elevation_data : List ((PFloat × PFloat) × PFloat) := []
  last_hook : ℚ := 0
  lost_position_sent : Bool := false
deriving DecidableEq, Repr

/-- GPSD.is_configured: (host, port) != (None, None). -/
def GPSDState.is_configured (s : GPSDState) : Bool :=
  !(decide (s.gpsdhost = none) && decide (s.gpsdport = none))

/-- Stable insertion for a descending sort: x is placed before the first
strictly smaller element (sorted(..., reverse=True) is a stable descending
sort under __lt__). -/
def insertDesc {α : Type} (plt : α → α → Bool) (x : α) : List α → List α
  | [] => [x]
  | y :: t => if plt y x then x :: y :: t else y :: insertDesc plt x t

def sortDesc {α : Type} (plt : α → α → Bool) (xs : List α) : List α :=
  xs.foldl (fun acc y => insertDesc plt y acc) []

/-- GPSD.get_position_device: the configured main device if its Position is
valid, else the maximum under Position.__lt__ among valid positions
(dict iteration order breaking ties stably), else None. -/
def GPSDState.get_position_device (s : GPSDState) : Option String :=
  if !s.is_configured then none
  else
    let fallback :=
      match sortDesc (fun a b => Position.pylt a.2 b.2)
          (s.positions.filter (fun x => x.2.is_valid)) with
      | [] => none
      | x :: _ => some x.1
    match s.main_device with
    | some d =>
      match alookup s.positions d with
      | some p => if p.is_valid then some d else fallback
      | none => fallback
    | none => fallback

/-- The fall-through tail of GPSD.get_position: expire and return the cached
last position. -/
def GPSDState.get_position_cached (s : GPSDState) (now : ℚ) :
    Option Position × GPSDState :=
  match s.last_position with
  | some lp =>
      if s.fix_timeout ≠ 0 ∧ lp.is_fix_old s.fix_timeout now = some true then
        (none, { s with last_position := none })
      else (some lp, s)
  | none => (none, s)

/-- GPSD.get_position: best current device position, else the cached last
position while it is within fix_timeout of its last_fix. -/
def GPSDState.get_position (s : GPSDState) (now : ℚ) :
    Option Position × GPSDState :=
  match s.get_position_device with
  | some d =>
    match alookup s.positions d with
    | some p => (some p, { s with last_position := some p })
    | none => s.get_position_cached now
  | none => s.get_position_cached now

/-- Events sent to the plugin event bus by GPSD.plugin_hook. The
position_available payload is coords.to_dict() in the source; the Position
itself stands for it here. -/
inductive GEvent where
  | position_available (coords : Position)
  | position_lost
deriving DecidableEq, Repr

/-- GPSD.plugin_hook: rate-limited to one pass per 10 seconds; emits
position_available whenever a position is returned, position_lost once per
transition to no-position. -/
def GPSDState.plugin_hook (s : GPSDState) (now : ℚ) : GPSDState × List GEvent :=
  if now - s.last_hook < 10 then (s, [])
  else
    let s1 := { s with last_hook := now }
    match s1.get_position now with
    | (some coords, s2) =>
        ({ s2 with lost_position_sent := false }, [.position_available coords])
    | (none, s2) =>
        if !s2.lost_position_sent then
          ({ s2 with lost_position_sent := true }, [.position_lost])
        else (s2, [])

/-- A run of the hook step: before each hook pass the environment (the gpsd
reader, cleanup, wifi updates) may transform the state arbitrarily. -/
def runHook (s : GPSDState) :
    List ((GPSDState → GPSDState) × ℚ) → List GEvent
  | [] => []
  | step :: rest =>
    let r := (step.1 s).plugin_hook step.2
    r.2 ++ runHook r.1 rest

/-- Trace predicate: scanning with `flag` = "a position_lost is pending an
answering position_available", a second unanswered position_lost is a
violation. -/
def lostOnceFrom (flag : Bool) : List GEvent → Bool
  | [] => true
  | .position_lost :: t => if flag then false else lostOnceFrom true t
  | .position_available _ :: t => lostOnceFrom false t

/-- GPSD.round_position. -/
def round_position (latitude longitude : PFloat) : PFloat × PFloat :=
  (latitude.round4, longitude.round4)

/-- GPSD.elevation_key: the source keys the cache by
str((round(lat, 4), round(long, 4))); str is injective on such pairs (every
NaN prints "nan", matching PFloat.nan = PFloat.nan), so the rounded pair
itself serves as the key. -/
def elevation_key (latitude longitude : PFloat) : PFloat × PFloat :=
  round_position latitude longitude

/-- GPSD.cache_elevation: first value wins; the snapshot save is external. -/
def GPSDState.cache_elevation (s : GPSDState)
    (latitude longitude elevation : PFloat) : GPSDState :=
  let key := elevation_key latitude longitude
  if !acontains s.elevation_data key then
    { s with elevation_data := aset s.elevation_data key elevation }
  else s

/-- GPSD.get_elevation: cached value or NaN. -/
def GPSDState.get_elevation (s : GPSDState) (latitude longitude : PFloat) :
    PFloat :=
  match alookup s.elevation_data (elevation_key latitude longitude) with
  | some e => e
  | none => .nan

/-- The append_location closure of GPSD.calculate_locations: record the
rounded point unless its key is already cached. -/
def append_location (elevation_data : List ((PFloat × PFloat) × PFloat))
    (locations : List (PFloat × PFloat)) (latitude longitude : PFloat) :
    List (PFloat × PFloat) :=
  if !acontains elevation_data (elevation_key latitude longitude) then
    locations ++ [round_position latitude longitude]
  else locations

/-- Python range(start, stop, step) for a positive step. -/
def rangeStep (start stop step : ℕ) : List ℕ :=
  (List.range ((stop - start + step - 1) / step)).map (fun i => start + step * i)

/-- The points fed to append_location by GPSD.calculate_locations: the raw
current position first, then for each distance 10..max_dist step 10 and each
bearing 0..359 the geodesic destination from the rounded center. geopy's
destination is an external library, abstracted as `dest`. -/
def raw_points (dest : PFloat × PFloat → ℕ → ℕ → PFloat × PFloat)
    (latitude longitude : PFloat) (max_dist : ℕ) : List (PFloat × PFloat) :=
  (latitude, longitude) ::
    (rangeStep 10 (max_dist + 1) 10).flatMap (fun d =>
      (List.range 360).map (fun b => dest (round_position latitude longitude) d b))

/-- Python == on a pair of floats (a lat/long dict): false whenever a NaN is
involved. -/
def pyEqPair (a b : PFloat × PFloat) : Bool :=
  match a, b with
  | (.val x, .val y), (.val z, .val w) => decide (x = z) && decide (y = w)
  | _, _ => false

/-- Python `l in seen` over float-pair dicts (fresh objects, so identity
never hits; == decides). -/
def pyMem (x : PFloat × PFloat) (seen : List (PFloat × PFloat)) : Bool :=
  seen.any (fun r => pyEqPair x r)

/-- The duplicate filter at the end of GPSD.calculate_locations: keep first
occurrences. -/
def dedupFirst (acc : List (PFloat × PFloat)) :
    List (PFloat × PFloat) → List (PFloat × PFloat)
  | [] => acc
  | x :: t => if pyMem x acc then dedupFirst acc t else dedupFirst (acc ++ [x]) t

/-- GPSD.calculate_locations: ring-sampled candidate grid points around a
2D-only position, cache-filtered and deduplicated. The source's indirect
refresh of last_position through get_position is invisible to callers of the
returned list and is dropped here. -/
def GPSDState.calculate_locations (s : GPSDState)
    (dest : PFloat × PFloat → ℕ → ℕ → PFloat × PFloat) (now : ℚ)
    (max_dist : ℕ) : List (PFloat × PFloat) :=
  match (s.get_position now).1 with
  | none => []
  | some coords =>
    if coords.mode ≠ 2 then []
    else
      dedupFirst []
        ((raw_points dest coords.latitude coords.longitude max_dist).foldl
          (fun acc p => append_location s.elevation_data acc p.1 p.2) [])

/-- GPSD.update_wifi_positions: record an access point location, rejecting
NaN coordinates. -/
def GPSDState.update_wifi_positions (s : GPSDState) (bssid : String)
    (lat long alt : PFloat) : GPSDState :=
  if lat.isnan || long.isnan then s
  else { s with wifi_positions := aset s.wifi_positions bssid ⟨lat, long, alt⟩ }

/-- Python min(iterable, key=f): scan keeping the current element unless the
next compares strictly smaller (NaN never wins a comparison). -/
def pymin {α : Type} (key : α → PFloat) (best : α) : List α → α
  | [] => best
  | x :: t => pymin key (if PFloat.flt (key x) (key best) then x else best) t

/-- Python max(iterable, key=f). -/
def pymax {α : Type} (key : α → PFloat) (best : α) : List α → α
  | [] => best
  | x :: t => pymax key (if PFloat.fgt (key x) (key best) then x else best) t

/-- Stable ascending insertion under Python float <, as sorted() computes on
consistently comparable data. -/
def insertAsc (x : PFloat) : List PFloat → List PFloat
  | [] => [x]
  | y :: t => if PFloat.flt x y then x :: y :: t else y :: insertAsc x t

def pysort (xs : List PFloat) : List PFloat :=
  xs.foldl (fun acc x => insertAsc x acc) []

/-- statistics.median: middle of the sorted data, mean of the two middles on
even length; none models StatisticsError on empty input. -/
def statistics_median (xs : List PFloat) : Option PFloat :=
  let sorted := pysort xs
  let n := sorted.length
  if n = 0 then none
  else if n % 2 = 1 then sorted.get? (n / 2)
  else
    match sorted.get? (n / 2 - 1), sorted.get? (n / 2) with
    | some a, some b => some ((a.add b).halve)
    | _, _ => none

/-- The matched stored locations of the visible bssids. -/
def wifi_points (s : GPSDState) (bssids : List String) : List WifiEntry :=
  bssids.filterMap (fun b => alookup s.wifi_positions b)

/-- Lower corner of the axis-aligned bounding box, as update_wifi computes
it with min() over the nonempty point list p0 :: rest. -/
def wifi_box_min (p0 : WifiEntry) (rest : List WifiEntry) : PFloat × PFloat :=
  ((pymin (fun p => p.latitude) p0 rest).latitude,
   (pymin (fun p => p.longitude) p0 rest).longitude)

def wifi_box_max (p0 : WifiEntry) (rest : List WifiEntry) : PFloat × PFloat :=
  ((pymax (fun p => p.latitude) p0 rest).latitude,
   (pymax (fun p => p.longitude) p0 rest).longitude)

/-- GPSD.update_wifi: require at least 3 matched points and a bounding box
whose geodesic diagonal (geopy, abstracted as `dist`) does not exceed 50
meters; then write the median position into the synthetic "wifi" Position,
3D iff an altitude resolved (median of AP altitudes, else cache lookup). -/
def GPSDState.update_wifi (s : GPSDState)
    (dist : PFloat × PFloat → PFloat × PFloat → PFloat)
    (bssids : List String) (now : ℚ) : GPSDState :=
  let points := wifi_points s bssids
  if points.length < 3 then s
  else
    match points with
    | [] => s
    | p0 :: rest =>
      if PFloat.fgt (dist (wifi_box_min p0 rest) (wifi_box_max p0 rest))
          (.val 50) then s
      else
        match statistics_median (points.map (fun p => p.latitude)),
              statistics_median (points.map (fun p => p.longitude)) with
        | some latitude, some longitude =>
          let altitudes :=
            (points.map (fun p => p.altitude)).filter (fun a => !a.isnan)
          let altitude :=
            match statistics_median altitudes with
            | some a => a
            | none => s.get_elevation latitude longitude
          let wifi0 :=
            match alookup s.positions "wifi" with
            | some p => p
            | none => { device := "wifi", accuracy := .val 50, dummy := true }
          let wifi := { wifi0 with
            latitude := latitude, longitude := longitude, altitude := altitude,
            last_update := some now, last_fix := some now,
            mode := if altitude.isnan then 2 else 3 }
          { s with positions := aset s.positions "wifi" wifi }
        | _, _ => s

/-! The read-loop failure counter and the daemon recovery subprocesses
(GPSD.loop, GPSD.reload_or_restart_gpsd, GPSD.restart_gpsd). Subprocess
outcomes and socket outcomes are oracle inputs; the emitted daemon-control
invocations are the observable output. -/

inductive DaemonAction where
  | reload (timeout : ℕ)
  | restart (timeout : ℕ)
deriving DecidableEq, Repr

/-- GPSD.reload_or_restart_gpsd: killall -SIGHUP gpsd with a 5s timeout;
on CalledProcessError fall back to restart_gpsd. `reload_ok` is the
subprocess outcome. -/
def reload_or_restart_gpsd (reload_ok : Bool) : List DaemonAction :=
  if reload_ok then [.reload 5] else [.reload 5, .restart 20]

/-- GPSD.restart_gpsd: systemctl restart gpsd with a 20s timeout. -/
def restart_gpsd : List DaemonAction := [.restart 20]

/-- The per-iteration oracle of GPSD.loop: whether the session is alive at
the top, whether connect() succeeds when attempted, whether
waiting()/read() deliver data, and whether a ConnectionError is raised. -/
structure LoopInput where
  session_alive : Bool
  connect_ok : Bool
  read_ok : Bool
  raises_connection_error : Bool
deriving DecidableEq, Repr

inductive StepOutcome where
  | ok (connection_errors : ℕ) (actions : List DaemonAction)
  | crashed
deriving DecidableEq, Repr

/-- One iteration of GPSD.loop. When the session is dead and connect()
fails, session stays None and the following session.waiting raises an
AttributeError that escapes the loop (only ConnectionError is caught):
the thread dies. Otherwise a failed read closes the session and counts; at
3 consecutive errors restart_gpsd (not reload_or_restart_gpsd) runs and the
counter resets; a ConnectionError also runs restart_gpsd and resets. -/
def loop_step (inp : LoopInput) (connection_errors : ℕ) : StepOutcome :=
  if !inp.session_alive && !inp.connect_ok then .crashed
  else if inp.raises_connection_error then .ok 0 restart_gpsd
  else if inp.read_ok then .ok 0 []
  else if connection_errors + 1 ≥ 3 then .ok 0 restart_gpsd
  else .ok (connection_errors + 1) []

/-! Concrete fixtures used by the evaluation theorems and witnesses. -/

def posA : Position :=
  { device := "ttyUSB0", latitude := .val 48, longitude := .val 2,
    mode := 3, last_fix := some 100 }

def posW : Position :=
  { device := "wifi", dummy := true, latitude := .val 48, longitude := .val 2,
    mode := 2, last_fix := some 100 }

def posOld : Position :=
  { device := "ttyA", latitude := .val 1, longitude := .val 1,
    mode := 2, last_fix := some 50 }

def posNew : Position :=
  { device := "ttyB", latitude := .val 1, longitude := .val 1,
    mode := 2, last_fix := some 100 }

def stateDummyWins : GPSDState :=
  { gpsdhost := some "127.0.0.1", gpsdport := some 2947,
    positions := [("ttyUSB0", posA), ("wifi", posW)] }

def stateOldWins : GPSDState :=
  { gpsdhost := some "127.0.0.1", gpsdport := some 2947,
    positions := [("ttyA", posOld), ("ttyB", posNew)] }

def p2c : Position :=
  { device := "gps0", latitude := .val 1, longitude := .val 2,
    speed := .val 3, mode := 3, last_fix := none }

def fx2w : Gpsfix :=
  { mode := 3, latitude := .val 7, longitude := .val 8, speed := .val 9 }

def lp3 : Position :=
  { device := "gps1", latitude := .val 10, longitude := .val 20,
    mode := 2, last_fix := some 0 }

def s3 : GPSDState :=
  { gpsdhost := some "h", gpsdport := some 2947, fix_timeout := 120,
    positions := [], last_position := some lp3 }

def wpA : WifiEntry := ⟨.val 1, .val 2, .val 30⟩

def wpB : WifiEntry := ⟨.val 1, .val 2, .val 100⟩

def wpC : WifiEntry := ⟨.val 2, .val 3, .val 40⟩

def s4 : GPSDState :=
  { wifi_positions := [("aa", wpA), ("bb", wpB), ("cc", wpC)] }

def dist4 : PFloat × PFloat → PFloat × PFloat → PFloat := fun _ _ => .val 10

def wp4 : Position :=
  { device := "wifi", dummy := true, last_update := some 7,
    latitude := .val 1, longitude := .val 2, altitude := .val 40,
    speed := .nan, accuracy := .val 50, mode := 3, last_fix := some 7 }

def failRead : LoopInput :=
  { session_alive := true, connect_ok := true, read_ok := false,
    raises_connection_error := false }

def pos6 : Position :=
  { device := "tty0", latitude := .val 5, longitude := .val 6,
    mode := 2, last_fix := some 0 }

def s6 : GPSDState :=
  { gpsdhost := some "h", gpsdport := some 2947,
    positions := [("tty0", pos6)] }

def dest6 : PFloat × PFloat → ℕ → ℕ → PFloat × PFloat :=
  fun _ d b => (.val d, .val b)

def pos8 : Position :=
  { device := "tty8", latitude := .val 3, longitude := .val 4,
    mode := 3, last_fix := some 0 }

def s8 : GPSDState :=
  { gpsdhost := some "h", gpsdport := some 2947,
    positions := [("tty8", pos8)], last_hook := 0 }

def p9 : Position :=
  { device := "g9", latitude := .val 1, longitude := .val 2,
    altitude := .val 3, speed := .val 4, accuracy := .val 5,
    mode := 3, last_fix := some 100, last_update := some 100 }

def fx9 : Gpsfix := { mode := 1 }

/-! Helper lemmas about the container and numeric scaffolding. -/

lemma alookup_aset_self {K V : Type} [DecidableEq K]
    (l : List (K × V)) (k : K) (v : V) : alookup (aset l k v) k = some v := by
  induction l with
  | nil => simp [aset, alookup]
  | cons hd t ih =>
    obtain ⟨k1, v1⟩ := hd
    by_cases hk : k1 = k
    · subst hk; simp [aset, alookup]
    · simp [aset, alookup, hk, ih]

lemma alookup_mem {K V : Type} [DecidableEq K]
    {l : List (K × V)} {k : K} {v : V} (h : alookup l k = some v) :
    (k, v) ∈ l := by
  induction l with
  | nil => simp [alookup] at h
  | cons hd t ih =>
    obtain ⟨k1, v1⟩ := hd
    by_cases hk : k1 = k
    · subst hk
      simp [alookup] at h
      subst h
      exact List.mem_cons_self _ _
    · simp [alookup, hk] at h
      exact List.mem_cons_of_mem _ (ih h)

lemma mem_aset {K V : Type} [DecidableEq K]
    {l : List (K × V)} {k : K} {v : V} {e : K × V} (h : e ∈ aset l k v) :
    e ∈ l ∨ e = (k, v) := by
  induction l with
  | nil => simp [aset] at h; right; exact h
  | cons hd t ih =>
    obtain ⟨k1, v1⟩ := hd
    by_cases hk : k1 = k
    · subst hk
      simp only [aset, if_pos rfl] at h
      rcases List.mem_cons.mp h with rfl | h
      · right; rfl
      · left; exact List.mem_cons_of_mem _ h
    · simp only [aset, if_neg hk] at h
      rcases List.mem_cons.mp h with rfl | h
      · left; exact List.mem_cons_self _ _
      · rcases ih h with h1 | h1
        · left; exact List.mem_cons_of_mem _ h1
        · right; exact h1

lemma roundHalfEven_intCast (n : ℤ) : roundHalfEven (n : ℚ) = n := by
  unfold roundHalfEven
  simp only [Int.floor_intCast, sub_self]
  norm_num

lemma roundQ4_idem (x : ℚ) : roundQ4 (roundQ4 x) = roundQ4 x := by
  unfold roundQ4
  rw [div_mul_cancel₀ _ (by norm_num : (10000 : ℚ) ≠ 0), roundHalfEven_intCast]

lemma roundQ4_intCast (n : ℤ) : roundQ4 (n : ℚ) = n := by
  unfold roundQ4
  rw [show ((n : ℚ) * 10000) = ((n * 10000 : ℤ) : ℚ) by push_cast; ring]
  rw [roundHalfEven_intCast]
  push_cast
  field_simp

lemma PFloat.round4_idem (p : PFloat) : p.round4.round4 = p.round4 := by
  cases p <;> simp [PFloat.round4, roundQ4_idem]

lemma PFloat.round4_isnan (p : PFloat) : p.round4.isnan = p.isnan := by
  cases p <;> simp [PFloat.round4, PFloat.isnan]

lemma round_position_idem (a b : PFloat) :
    round_position (round_position a b).1 (round_position a b).2 =
      round_position a b := by
  simp [round_position, PFloat.round4_idem]

lemma pyEqPair_eq {a b : PFloat × PFloat} (h : pyEqPair a b = true) :
    a = b := by
  obtain ⟨a1, a2⟩ := a
  obtain ⟨b1, b2⟩ := b
  cases a1 <;> cases a2 <;> cases b1 <;> cases b2 <;> simp_all [pyEqPair]

lemma pyEqPair_self {a : PFloat × PFloat}
    (h1 : a.1.isnan = false) (h2 : a.2.isnan = false) :
    pyEqPair a a = true := by
  obtain ⟨a1, a2⟩ := a
  cases a1 <;> cases a2 <;> simp_all [pyEqPair, PFloat.isnan]

lemma pyMem_true_mem {x : PFloat × PFloat} {acc : List (PFloat × PFloat)}
    (h : pyMem x acc = true) : x ∈ acc := by
  unfold pyMem at h
  obtain ⟨r, hr, he⟩ := List.any_eq_true.mp h
  rw [pyEqPair_eq he]
  exact hr

lemma mem_pyMem {x : PFloat × PFloat} {acc : List (PFloat × PFloat)}
    (hx : x ∈ acc) (h1 : x.1.isnan = false) (h2 : x.2.isnan = false) :
    pyMem x acc = true := by
  unfold pyMem
  exact List.any_eq_true.mpr ⟨x, hx, pyEqPair_self h1 h2⟩

lemma mem_dedupFirst (l : List (PFloat × PFloat)) :
    ∀ (acc : List (PFloat × PFloat)) (a : PFloat × PFloat),
      a ∈ dedupFirst acc l ↔ a ∈ acc ∨ a ∈ l := by
  induction l with
  | nil => intro acc a; simp [dedupFirst]
  | cons x t ih =>
    intro acc a
    simp only [dedupFirst]
    by_cases hm : pyMem x acc = true
    · rw [if_pos hm, ih]
      have hx := pyMem_true_mem hm
      constructor
      · rintro (h | h)
        · exact Or.inl h
        · exact Or.inr (List.mem_cons_of_mem _ h)
      · rintro (h | h)
        · exact Or.inl h
        · rcases List.mem_cons.mp h with rfl | h
          · exact Or.inl hx
          · exact Or.inr h
    · rw [if_neg hm, ih]
      simp only [List.mem_append, List.mem_singleton, List.mem_cons]
      tauto

lemma dedupFirst_nodup (l : List (PFloat × PFloat)) :
    ∀ acc : List (PFloat × PFloat),
      (∀ a ∈ l, a.1.isnan = false ∧ a.2.isnan = false) →
      acc.Nodup → (dedupFirst acc l).Nodup := by
  induction l with
  | nil => intro acc _ hacc; simpa [dedupFirst] using hacc
  | cons x t ih =>
    intro acc hl hacc
    simp only [dedupFirst]
    by_cases hm : pyMem x acc = true
    · rw [if_pos hm]
      exact ih acc (fun a ha => hl a (List.mem_cons_of_mem _ ha)) hacc
    · rw [if_neg hm]
      apply ih _ (fun a ha => hl a (List.mem_cons_of_mem _ ha))
      have hx := hl x (List.mem_cons_self _ _)
      refine List.Nodup.append hacc (List.nodup_singleton _) ?_
      intro a ha hax
      rcases List.mem_singleton.mp hax with rfl
      exact hm (mem_pyMem ha hx.1 hx.2)

lemma foldl_append_location
    (cache : List ((PFloat × PFloat) × PFloat)) (raw : List (PFloat × PFloat)) :
    ∀ acc : List (PFloat × PFloat),
      raw.foldl (fun a p => append_location cache a p.1 p.2) acc =
        acc ++ (raw.filter
            (fun p => !acontains cache (elevation_key p.1 p.2))).map
          (fun p => round_position p.1 p.2) := by
  induction raw with
  | nil => intro acc; simp
  | cons p t ih =>
    intro acc
    rw [List.foldl_cons, List.filter_cons]
    by_cases hc : acontains cache (elevation_key p.1 p.2) = true
    · have hstep : append_location cache acc p.1 p.2 = acc := by
        simp [append_location, hc]
      rw [hstep, ih]
      simp [hc]
    · have hc2 : acontains cache (elevation_key p.1 p.2) = false := by
        simpa using hc
      have hstep : append_location cache acc p.1 p.2 =
          acc ++ [round_position p.1 p.2] := by
        simp [append_location, hc2]
      rw [hstep, ih]
      simp [hc2, List.append_assoc]

lemma insertAsc_length (x : PFloat) (l : List PFloat) :
    (insertAsc x l).length = l.length + 1 := by
  induction l with
  | nil => simp [insertAsc]
  | cons y t ih =>
    simp only [insertAsc]
    by_cases h : PFloat.flt x y = true
    · rw [if_pos h]; simp
    · rw [if_neg h]; simp [ih]

lemma pysort_foldl_length (xs : List PFloat) :
    ∀ acc : List PFloat,
      (xs.foldl (fun a x => insertAsc x a) acc).length =
        xs.length + acc.length := by
  induction xs with
  | nil => intro acc; simp
  | cons x t ih =>
    intro acc
    simp only [List.foldl_cons]
    rw [ih, insertAsc_length]
    simp [Nat.add_comm, Nat.add_assoc, Nat.add_left_comm]

lemma pysort_length (xs : List PFloat) : (pysort xs).length = xs.length := by
  unfold pysort
  rw [pysort_foldl_length]
  simp

lemma statistics_median_isSome {xs : List PFloat} (h : xs ≠ []) :
    ∃ v, statistics_median xs = some v := by
  have hlen : (pysort xs).length = xs.length := pysort_length xs
  have hpos : 0 < xs.length := List.length_pos.mpr h
  unfold statistics_median
  rw [if_neg (by omega)]
  by_cases hodd : (pysort xs).length % 2 = 1
  · rw [if_pos hodd]
    have hlt : (pysort xs).length / 2 < (pysort xs).length := by omega
    rw [List.get?_eq_get hlt]
    exact ⟨_, rfl⟩
  · rw [if_neg hodd]
    have h1 : (pysort xs).length / 2 - 1 < (pysort xs).length := by omega
    have h2 : (pysort xs).length / 2 < (pysort xs).length := by omega
    rw [List.get?_eq_get h1, List.get?_eq_get h2]
    exact ⟨_, rfl⟩

lemma get_position_device_none (s : GPSDState)
    (h : ∀ dp ∈ s.positions, dp.2.is_valid = false) :
    s.get_position_device = none := by
  have hf : s.positions.filter (fun x => x.2.is_valid) = [] :=
    List.filter_eq_nil_iff.mpr (fun a ha => by simp [h a ha])
  rcases hmd : s.main_device with _ | d
  · simp [GPSDState.get_position_device, hf, hmd, sortDesc]
  · rcases hl : alookup s.positions d with _ | p
    · simp [GPSDState.get_position_device, hf, hmd, hl, sortDesc]
    · have hv := h (d, p) (alookup_mem hl)
      simp [GPSDState.get_position_device, hf, hmd, hl, sortDesc, hv]

lemma get_position_lost_position_sent (s : GPSDState) (now : ℚ) :
    ((s.get_position now).2).lost_position_sent = s.lost_position_sent := by
  unfold GPSDState.get_position GPSDState.get_position_cached
  repeat' split
  all_goals rfl

lemma plugin_hook_cases (s : GPSDState) (now : ℚ) :
    ((s.plugin_hook now).2 = [] ∧
      (s.plugin_hook now).1.lost_position_sent = s.lost_position_sent) ∨
    ((∃ p, (s.plugin_hook now).2 = [GEvent.position_available p]) ∧
      (s.plugin_hook now).1.lost_position_sent = false) ∨
    ((s.plugin_hook now).2 = [GEvent.position_lost] ∧
      s.lost_position_sent = false ∧
      (s.plugin_hook now).1.lost_position_sent = true) := by
  by_cases hg : now - s.last_hook < 10
  · left
    constructor <;> simp [GPSDState.plugin_hook, hg]
  · rcases hgp : ({ s with last_hook := now } : GPSDState).get_position now
      with ⟨o, s2⟩
    have hl : s2.lost_position_sent = s.lost_position_sent := by
      have h2 := get_position_lost_position_sent
        ({ s with last_hook := now }) now
      rw [hgp] at h2
      exact h2
    have hunf : s.plugin_hook now =
        (match (o, s2) with
         | (some coords, s2) =>
             ({ s2 with lost_position_sent := false },
               [GEvent.position_available coords])
         | (none, s2) =>
             if !s2.lost_position_sent then
               ({ s2 with lost_position_sent := true }, [GEvent.position_lost])
             else (s2, [])) := by
      unfold GPSDState.plugin_hook
      rw [if_neg hg]
      dsimp only
      rw [hgp]
    rcases o with _ | p
    · by_cases hsent : s2.lost_position_sent = true
      · have hres : s.plugin_hook now = (s2, []) := by
          rw [hunf]
          simp [hsent]
        left
        rw [hres]
        exact ⟨rfl, hl⟩
      · have hsent2 : s2.lost_position_sent = false := by simpa using hsent
        have hres : s.plugin_hook now =
            ({ s2 with lost_position_sent := true }, [GEvent.position_lost]) := by
          rw [hunf]
          simp [hsent2]
        right; right
        rw [hres]
        exact ⟨rfl, by rw [← hl]; exact hsent2, rfl⟩
    · have hres : s.plugin_hook now =
          ({ s2 with lost_position_sent := false },
            [GEvent.position_available p]) := by
        rw [hunf]
      right; left
      rw [hres]
      exact ⟨⟨p, rfl⟩, rfl⟩

lemma lostOnce_runHook :
    ∀ (trace : List ((GPSDState → GPSDState) × ℚ)) (s : GPSDState),
      (∀ e ∈ trace, ∀ st : GPSDState,
        (e.1 st).lost_position_sent = st.lost_position_sent) →
      lostOnceFrom s.lost_position_sent (runHook s trace) = true := by
  intro trace
  induction trace with
  | nil => intro s _; simp [runHook, lostOnceFrom]
  | cons step rest ih =>
    intro s h
    have hstep : ∀ st : GPSDState,
        (step.1 st).lost_position_sent = st.lost_position_sent :=
      h step (List.mem_cons_self _ _)
    have hrest : ∀ e ∈ rest, ∀ st : GPSDState,
        (e.1 st).lost_position_sent = st.lost_position_sent :=
      fun e he => h e (List.mem_cons_of_mem _ he)
    simp only [runHook]
    rcases plugin_hook_cases (step.1 s) step.2 with
      ⟨hev, hfl⟩ | ⟨⟨p, hev⟩, hfl⟩ | ⟨hev, hfl0, hfl⟩
    · rw [hev, List.nil_append]
      have hr := ih (((step.1 s).plugin_hook step.2).1) hrest
      rw [hfl, hstep s] at hr
      exact hr
    · rw [hev, List.singleton_append, lostOnceFrom]
      have hr := ih (((step.1 s).plugin_hook step.2).1) hrest
      rw [hfl] at hr
      exact hr
    · have hsl : s.lost_position_sent = false := by rw [← hstep s]; exact hfl0
      rw [hev, List.singleton_append, hsl, lostOnceFrom, if_neg (by simp)]
      have hr := ih (((step.1 s).plugin_hook step.2).1) hrest
      rw [hfl] at hr
      exact hr

/-! Claim theorems. -/

/-- Claim C1 (code_bug evaluation): the claim states that among valid
positions a strictly greater mode always wins and equal modes are broken by
the most recent last_fix, with the synthetic wifi Position competing like
any other device. The code maximizes (dummy, mode, -last_fix.timestamp())
instead: this theorem evaluates get_position_device on the failing inputs,
showing a valid dummy wifi 2D position beating a real 3D position with the
same last_fix, and, among two equal-mode real devices, the OLDER last_fix
winning. -/
theorem gpsd_C1_arbitration_bug :
    posA.is_valid = true ∧ posW.is_valid = true ∧ posW.dummy = true ∧
    posA.mode = 3 ∧ posW.mode = 2 ∧ posA.last_fix = posW.last_fix ∧
    stateDummyWins.main_device = none ∧
    stateDummyWins.get_position_device = some "wifi" ∧
    posOld.is_valid = true ∧ posNew.is_valid = true ∧
    posOld.mode = posNew.mode ∧ posOld.last_fix = some 50 ∧
    posNew.last_fix = some 100 ∧ stateOldWins.main_device = none ∧
    stateOldWins.get_position_device = some "ttyA" := by
  decide

/-- Claim C2 counterexample: the strict per-bit iff fails in both
directions. A MODE_SET-only report with fix mode 1 (and no usable previous
fix) rewrites latitude to NaN although LATLON_SET is unset; a
LATLON_SET-only report without MODE_SET writes nothing although the
latitude bit is set. -/
theorem gpsd_C2_counterexample :
    (LATLON_SET &&& MODE_SET = 0 ∧
      (p2c.update_fix { mode := 1 } MODE_SET 200).latitude ≠ p2c.latitude) ∧
    (LATLON_SET &&& LATLON_SET ≠ 0 ∧
      p2c.update_fix { latitude := .val 7, mode := 3 } LATLON_SET 200 = p2c) := by
  decide

/-- Claim C2 (amended): a report without MODE_SET changes nothing; when
MODE_SET is set and the reported mode is at least 2, each of latitude,
longitude, speed and mode is written iff its validity bit is set, with
last_update refreshed; below-2 modes follow the reset rule of C9 instead. -/
theorem gpsd_C2_amended (p : Position) (fix : Gpsfix) (valid : ℕ) (now : ℚ) :
    (MODE_SET &&& valid = 0 → p.update_fix fix valid now = p) ∧
    (MODE_SET &&& valid ≠ 0 → 2 ≤ fix.mode →
      ((p.update_fix fix valid now).latitude =
          (if LATLON_SET &&& valid ≠ 0 then fix.latitude else p.latitude) ∧
       (p.update_fix fix valid now).longitude =
          (if LATLON_SET &&& valid ≠ 0 then fix.longitude else p.longitude) ∧
       (p.update_fix fix valid now).speed =
          (if SPEED_SET &&& valid ≠ 0 then fix.speed else p.speed) ∧
       (p.update_fix fix valid now).mode = fix.mode ∧
       (p.update_fix fix valid now).last_update = some now)) := by
  constructor
  · intro h
    simp [Position.update_fix, h]
  · intro h hm
    have hm2 : fix.mode ≥ 2 := hm
    by_cases hl : LATLON_SET &&& valid ≠ 0 <;>
      by_cases hs : SPEED_SET &&& valid ≠ 0 <;>
        simp [Position.update_fix, Position.set_attr, h, hm2, hl, hs]

/-- Claim C2 amended witness: a MODE_SET + LATLON_SET report with mode 3
writes latitude and leaves speed untouched, refreshing last_update. -/
theorem gpsd_C2_amended_witness :
    (p2c.update_fix fx2w (MODE_SET ||| LATLON_SET) 250).latitude = .val 7 ∧
    (p2c.update_fix fx2w (MODE_SET ||| LATLON_SET) 250).speed = p2c.speed ∧
    (p2c.update_fix fx2w (MODE_SET ||| LATLON_SET) 250).mode = 3 ∧
    (p2c.update_fix fx2w (MODE_SET ||| LATLON_SET) 250).last_update =
      some 250 := by
  obtain ⟨h1, h2, h3, h4, h5⟩ :=
    (gpsd_C2_amended p2c fx2w (MODE_SET ||| LATLON_SET) 250).2
      (by decide) (by decide)
  refine ⟨?_, ?_, ?_, h5⟩
  · rw [h1]; decide
  · rw [h3]; decide
  · rw [h4]; decide

lemma cache_elevation_hit (s : GPSDState) (lat long e : PFloat)
    (h : acontains s.elevation_data (elevation_key lat long) = true) :
    s.cache_elevation lat long e = s := by
  simp [GPSDState.cache_elevation, h]

lemma cache_elevation_miss (s : GPSDState) (lat long e : PFloat)
    (h : acontains s.elevation_data (elevation_key lat long) = false) :
    (s.cache_elevation lat long e).elevation_data =
      aset s.elevation_data (elevation_key lat long) e := by
  simp [GPSDState.cache_elevation, h]

/-- Claim C5: the elevation cache is first-write-wins: writing e1 then e2
under the same grid key leaves the key mapped to e1. -/
theorem gpsd_C5_first_wins (s : GPSDState) (lat long e1 e2 : PFloat)
    (h : acontains s.elevation_data (elevation_key lat long) = false) :
    ((s.cache_elevation lat long e1).cache_elevation lat long e2).get_elevation
      lat long = e1 := by
  have h1 : (s.cache_elevation lat long e1).elevation_data =
      aset s.elevation_data (elevation_key lat long) e1 :=
    cache_elevation_miss s lat long e1 h
  have h2 : alookup (aset s.elevation_data (elevation_key lat long) e1)
      (elevation_key lat long) = some e1 := alookup_aset_self _ _ _
  have h3 : acontains (s.cache_elevation lat long e1).elevation_data
      (elevation_key lat long) = true := by
    rw [h1]
    simp [acontains, h2]
  rw [cache_elevation_hit _ _ _ _ h3]
  simp [GPSDState.get_elevation, h1, h2]

/-- Claim C5 witness: on an empty cache, write 10 then 20 at the same key
and read back 10. -/
theorem gpsd_C5_witness :
    acontains ({} : GPSDState).elevation_data
      (elevation_key (.val 0) (.val 0)) = false ∧
    ((({} : GPSDState).cache_elevation (.val 0) (.val 0)
        (.val 10)).cache_elevation (.val 0) (.val 0) (.val 20)).get_elevation
      (.val 0) (.val 0) = .val 10 :=
  ⟨by decide,
    gpsd_C5_first_wins {} (.val 0) (.val 0) (.val 10) (.val 20) (by decide)⟩

/-- Claim C9: a MODE_SET report with mode below 2 leaves the Position
entirely unchanged while the previous fix is younger than 10 seconds;
otherwise it resets latitude, longitude, altitude, speed and accuracy to
NaN and keeps mode, last_fix and last_update. -/
theorem gpsd_C9_low_mode_reset (p : Position) (fix : Gpsfix) (valid : ℕ)
    (now : ℚ) (hm : MODE_SET &&& valid ≠ 0) (hlt : fix.mode < 2) :
    (∀ t, p.last_fix = some t → now - t < 10 →
      p.update_fix fix valid now = p) ∧
    ((p.last_fix = none ∨ ∃ t, p.last_fix = some t ∧ 10 ≤ now - t) →
      ((p.update_fix fix valid now).latitude = .nan ∧
       (p.update_fix fix valid now).longitude = .nan ∧
       (p.update_fix fix valid now).altitude = .nan ∧
       (p.update_fix fix valid now).speed = .nan ∧
       (p.update_fix fix valid now).accuracy = .nan ∧
       (p.update_fix fix valid now).mode = p.mode ∧
       (p.update_fix fix valid now).last_fix = p.last_fix ∧
       (p.update_fix fix valid now).last_update = p.last_update ∧
       (p.update_fix fix valid now).device = p.device ∧
       (p.update_fix fix valid now).dummy = p.dummy)) := by
  have hge : ¬ fix.mode ≥ 2 := by omega
  constructor
  · intro t ht hyoung
    simp [Position.update_fix, hm, hge, ht, hyoung]
  · intro hcase
    rcases hcase with hnone | ⟨t, ht, hold⟩
    · simp [Position.update_fix, hm, hge, hnone]
    · have hno : ¬ (now - t < 10) := by linarith
      simp [Position.update_fix, hm, hge, ht, hno]

/-- Claim C9 witness: with a 5-second-old fix the Position is unchanged;
with a 100-second-old fix the coordinates reset and mode survives. -/
theorem gpsd_C9_witness :
    p9.update_fix fx9 MODE_SET 105 = p9 ∧
    (p9.update_fix fx9 MODE_SET 200).latitude = .nan ∧
    (p9.update_fix fx9 MODE_SET 200).mode = p9.mode := by
  have h1 := gpsd_C9_low_mode_reset p9 fx9 MODE_SET 105 (by decide) (by decide)
  have h2 := gpsd_C9_low_mode_reset p9 fx9 MODE_SET 200 (by decide) (by decide)
  refine ⟨h1.1 100 rfl (by norm_num), ?_, ?_⟩
  · exact (h2.2 (Or.inr ⟨100, rfl, by norm_num⟩)).1
  · exact (h2.2 (Or.inr ⟨100, rfl, by norm_num⟩)).2.2.2.2.2.1

/-- Claim C10: update_wifi_positions rejects NaN coordinates, so the wifi
table invariant "every entry has non-NaN latitude and longitude" is
preserved by every insertion. -/
theorem gpsd_C10_wifi_nan_guard (s : GPSDState) (bssid : String)
    (lat long alt : PFloat) :
    ((lat.isnan = true ∨ long.isnan = true) →
      s.update_wifi_positions bssid lat long alt = s) ∧
    ((∀ e ∈ s.wifi_positions,
        e.2.latitude.isnan = false ∧ e.2.longitude.isnan = false) →
      ∀ e ∈ (s.update_wifi_positions bssid lat long alt).wifi_positions,
        e.2.latitude.isnan = false ∧ e.2.longitude.isnan = false) := by
  constructor
  · intro h
    rcases h with h | h <;> simp [GPSDState.update_wifi_positions, h]
  · intro hinv e he
    by_cases hn : (lat.isnan || long.isnan) = true
    · simp only [GPSDState.update_wifi_positions, if_pos hn] at he
      exact hinv e he
    · simp only [GPSDState.update_wifi_positions, if_neg hn] at he
      simp only [Bool.or_eq_true, not_or, Bool.not_eq_true] at hn
      rcases mem_aset he with h1 | h1
      · exact hinv e h1
      · subst h1
        exact ⟨hn.1, hn.2⟩

/-- Claim C10 witness: a NaN latitude insertion is a no-op on the empty
state, and a finite insertion yields an entry with non-NaN coordinates. -/
theorem gpsd_C10_witness :
    ({} : GPSDState).update_wifi_positions "aa" .nan (.val 1) (.val 2) =
      ({} : GPSDState) ∧
    (("bb", (⟨.val 1, .val 2, .val 3⟩ : WifiEntry)).2.latitude.isnan = false ∧
     ("bb", (⟨.val 1, .val 2, .val 3⟩ : WifiEntry)).2.longitude.isnan = false) :=
  ⟨(gpsd_C10_wifi_nan_guard {} "aa" .nan (.val 1) (.val 2)).1 (Or.inl rfl),
   (gpsd_C10_wifi_nan_guard {} "bb" (.val 1) (.val 2) (.val 3)).2
     (by simp)
     ("bb", (⟨.val 1, .val 2, .val 3⟩ : WifiEntry)) (by decide)⟩

/-- Claim C3: after every device position has become invalid, get_position
returns the cached last position while fewer than fix_timeout seconds have
elapsed since its last_fix, and the no-position sentinel once more than
fix_timeout seconds have elapsed. -/
theorem gpsd_C3_last_position_timeout (s : GPSDState) (now : ℚ)
    (lp : Position) (t : ℚ)
    (hinv : ∀ dp ∈ s.positions, dp.2.is_valid = false)
    (hft : 0 < s.fix_timeout)
    (hlp : s.last_position = some lp)
    (ht : lp.last_fix = some t) :
    (now - t < (s.fix_timeout : ℚ) → (s.get_position now).1 = some lp) ∧
    ((s.fix_timeout : ℚ) < now - t → (s.get_position now).1 = none) := by
  have hdev := get_position_device_none s hinv
  constructor
  · intro hlt
    have hno : ¬ (s.fix_timeout ≠ 0 ∧
        lp.is_fix_old s.fix_timeout now = some true) := by
      rintro ⟨h0, hold⟩
      simp only [Position.is_fix_old, Position.is_old, ht, Option.some.injEq,
        decide_eq_true_eq] at hold
      linarith
    simp only [GPSDState.get_position, hdev, GPSDState.get_position_cached, hlp]
    rw [if_neg hno]
  · intro hgt
    have hyes : s.fix_timeout ≠ 0 ∧
        lp.is_fix_old s.fix_timeout now = some true := by
      refine ⟨by omega, ?_⟩
      simp only [Position.is_fix_old, Position.is_old, ht, Option.some.injEq,
        decide_eq_true_eq]
      linarith
    simp only [GPSDState.get_position, hdev, GPSDState.get_position_cached, hlp]
    rw [if_pos hyes]

/-- Claim C3 witness: with the cached fix taken at t=0 and fix_timeout=120,
get_position returns the cached position at now=30 and none at now=200. -/
theorem gpsd_C3_witness :
    (s3.get_position 30).1 = some lp3 ∧ (s3.get_position 200).1 = none := by
  have h1 := gpsd_C3_last_position_timeout s3 30 lp3 0 (by simp [s3])
    (by norm_num [s3]) rfl rfl
  have h2 := gpsd_C3_last_position_timeout s3 200 lp3 0 (by simp [s3])
    (by norm_num [s3]) rfl rfl
  exact ⟨h1.1 (by norm_num [s3]), h2.2 (by norm_num [s3])⟩

/-- Claim C7 counterexample: at the third consecutive failed read cycle the
loop emits the hard restart (20 s) directly, which matches neither outcome
of the graceful-first recovery reload_or_restart_gpsd claimed by the spec. -/
theorem gpsd_C7_counterexample :
    loop_step failRead 2 = .ok 0 [DaemonAction.restart 20] ∧
    reload_or_restart_gpsd true ≠ [DaemonAction.restart 20] ∧
    reload_or_restart_gpsd false ≠ [DaemonAction.restart 20] := by
  decide

/-- Claim C7 (amended): on 3 consecutive failed read cycles the loop invokes
the hard service restart (20 s timeout) directly and resets the failure
counter to zero; the graceful recovery reload_or_restart_gpsd (reload with
5 s timeout, falling back to the 20 s restart only when the reload fails)
exists but is invoked at thread start, on bluetooth reconnection and from
the web UI, not from the failure counter. -/
theorem gpsd_C7_amended :
    (∀ (inp : LoopInput) (errors : ℕ), inp.session_alive = true →
      inp.raises_connection_error = false → inp.read_ok = false →
      2 ≤ errors → loop_step inp errors = .ok 0 [DaemonAction.restart 20]) ∧
    reload_or_restart_gpsd true = [DaemonAction.reload 5] ∧
    reload_or_restart_gpsd false =
      [DaemonAction.reload 5, DaemonAction.restart 20] := by
  refine ⟨?_, rfl, rfl⟩
  intro inp errors ha hc hr he
  unfold loop_step
  rw [ha, hc, hr]
  rw [if_neg (by simp), if_neg (by simp), if_neg (by simp), if_pos (by omega)]
  rfl

/-- Claim C7 amended witness: restart fires and the counter resets at the
concrete failing iteration. -/
theorem gpsd_C7_amended_witness :
    loop_step failRead 5 = .ok 0 [DaemonAction.restart 20] :=
  gpsd_C7_amended.1 failRead 5 rfl rfl rfl (by norm_num)

/-- Claim C8: across every run of the hook step, position_lost is emitted at
most once per transition to no-position: after a position_lost, no further
position_lost occurs before a position_available; and on every pass that is
not rate-skipped, position_available is emitted whenever arbitration yields
a position. -/
theorem gpsd_C8_lost_once :
    (∀ (s : GPSDState) (trace : List ((GPSDState → GPSDState) × ℚ)),
      (∀ e ∈ trace, ∀ st : GPSDState,
        (e.1 st).lost_position_sent = st.lost_position_sent) →
      lostOnceFrom s.lost_position_sent (runHook s trace) = true) ∧
    (∀ (s : GPSDState) (now : ℚ) (p : Position),
      ¬ (now - s.last_hook < 10) →
      (({ s with last_hook := now } : GPSDState).get_position now).1 = some p →
      (s.plugin_hook now).2 = [GEvent.position_available p]) := by
  constructor
  · intro s trace h
    exact lostOnce_runHook trace s h
  · intro s now p hg hp
    rcases hgp : ({ s with last_hook := now } : GPSDState).get_position now
      with ⟨o, s2⟩
    rw [hgp] at hp
    dsimp only at hp
    subst hp
    unfold GPSDState.plugin_hook
    rw [if_neg hg]
    dsimp only
    rw [hgp]

/-- Claim C8 witness: on the unconfigured empty state the two-tick run emits
a single position_lost; on a state with a valid device the hook emits
position_available. -/
theorem gpsd_C8_witness :
    lostOnceFrom ({} : GPSDState).lost_position_sent
      (runHook {} [(fun st => st, 20), (fun st => st, 40)]) = true ∧
    (s8.plugin_hook 50).2 = [GEvent.position_available pos8] := by
  constructor
  · apply gpsd_C8_lost_once.1
    intro e he st
    rcases List.mem_cons.mp he with rfl | he
    · rfl
    · rcases List.mem_cons.mp he with rfl | he
      · rfl
      · simp at he
  · exact gpsd_C8_lost_once.2 s8 50 pos8 (by norm_num [s8]) (by decide)

lemma wifi_mode_cases (alt : PFloat) :
    (if alt.isnan = true then (2 : ℤ) else 3) = 2 ∨
      (if alt.isnan = true then (2 : ℤ) else 3) = 3 := by
  by_cases h : alt.isnan = true <;> simp [h]

lemma wifi_mode_iff (alt : PFloat) :
    ((if alt.isnan = true then (2 : ℤ) else 3) = 3 ↔ alt.isnan = false) := by
  by_cases h : alt.isnan = true <;> norm_num [h]

/-- Claim C4: update_wifi is a no-op when fewer than 3 visible bssids have
stored locations, and when the bounding box of the matched points has a
geodesic diagonal exceeding 50 meters; otherwise the synthetic "wifi"
Position is written with dummy=true, the median latitude and longitude of
the matched points, a fresh last_fix, and mode 3 exactly when an altitude
resolved (median of available AP altitudes, else elevation-cache lookup),
mode 2 otherwise. The "wifi" key is only ever created by this routine with
dummy=true, which the hypothesis hw records for pre-existing entries. -/
theorem gpsd_C4_update_wifi (s : GPSDState)
    (dist : PFloat × PFloat → PFloat × PFloat → PFloat)
    (bssids : List String) (now : ℚ) :
    ((wifi_points s bssids).length < 3 → s.update_wifi dist bssids now = s) ∧
    (∀ p0 rest, wifi_points s bssids = p0 :: rest →
      PFloat.fgt (dist (wifi_box_min p0 rest) (wifi_box_max p0 rest))
        (.val 50) = true →
      s.update_wifi dist bssids now = s) ∧
    (∀ p0 rest, wifi_points s bssids = p0 :: rest →
      3 ≤ (wifi_points s bssids).length →
      PFloat.fgt (dist (wifi_box_min p0 rest) (wifi_box_max p0 rest))
        (.val 50) = false →
      (alookup s.positions "wifi" = none ∨
        (∃ q, alookup s.positions "wifi" = some q ∧ q.dummy = true)) →
      (acontains (s.update_wifi dist bssids now).positions "wifi" = true ∧
       ∀ wp, alookup (s.update_wifi dist bssids now).positions "wifi" =
           some wp →
         (wp.dummy = true ∧
          some wp.latitude = statistics_median
            ((wifi_points s bssids).map (fun p => p.latitude)) ∧
          some wp.longitude = statistics_median
            ((wifi_points s bssids).map (fun p => p.longitude)) ∧
          (wp.mode = 2 ∨ wp.mode = 3) ∧
          (wp.mode = 3 ↔ wp.altitude.isnan = false) ∧
          wp.last_fix = some now))) := by
  refine ⟨?_, ?_, ?_⟩
  · intro h
    unfold GPSDState.update_wifi
    dsimp only
    rw [if_pos h]
  · intro p0 rest hpts hgt
    unfold GPSDState.update_wifi
    dsimp only
    rw [hpts]
    by_cases hlen : (p0 :: rest).length < 3
    · rw [if_pos hlen]
    · rw [if_neg hlen]
      dsimp only
      rw [if_pos hgt]
  · intro p0 rest hpts hlen hle hw
    have hlat : ((wifi_points s bssids).map (fun p => p.latitude)) ≠ [] := by
      rw [hpts]; simp
    have hlong : ((wifi_points s bssids).map (fun p => p.longitude)) ≠ [] := by
      rw [hpts]; simp
    obtain ⟨latm, hlatm⟩ := statistics_median_isSome hlat
    obtain ⟨longm, hlongm⟩ := statistics_median_isSome hlong
    have hnotlt : ¬ ((p0 :: rest).length < 3) := by
      rw [hpts] at hlen; omega
    rw [hpts] at hlatm hlongm
    have hres : (s.update_wifi dist bssids now).positions =
        aset s.positions "wifi"
          (let altitudes :=
            ((p0 :: rest).map (fun p => p.altitude)).filter (fun a => !a.isnan)
           let altitude :=
            match statistics_median altitudes with
            | some a => a
            | none => s.get_elevation latm longm
           let wifi0 :=
            match alookup s.positions "wifi" with
            | some p => p
            | none => { device := "wifi", accuracy := .val 50, dummy := true }
           { wifi0 with
              latitude := latm, longitude := longm, altitude := altitude,
              last_update := some now, last_fix := some now,
              mode := if altitude.isnan then 2 else 3 }) := by
      unfold GPSDState.update_wifi
      dsimp only
      rw [hpts, if_neg hnotlt]
      dsimp only
      rw [if_neg (by simp [hle])]
      rw [hlatm, hlongm]
    constructor
    · rw [hres]
      simp [acontains, alookup_aset_self]
    · intro wp hwp
      rw [hres, alookup_aset_self] at hwp
      have hbw := Option.some.inj hwp
      subst hbw
      refine ⟨?_, ?_, ?_, ?_, ?_, ?_⟩
      · rcases hw with hwn | ⟨q, hq, hqd⟩
        · rw [hwn]
        · rw [hq]
          exact hqd
      · rw [hpts]
        exact hlatm.symm
      · rw [hpts]
        exact hlongm.symm
      · exact wifi_mode_cases _
      · exact wifi_mode_iff _
      · rfl

/-- Claim C4 witness: three stored access points in a small box produce the
synthetic wifi position with median coordinates and mode 3. -/
theorem gpsd_C4_witness :
    wp4.dummy = true ∧
    some wp4.latitude = statistics_median
      ((wifi_points s4 ["aa", "bb", "cc"]).map (fun p => p.latitude)) ∧
    some wp4.longitude = statistics_median
      ((wifi_points s4 ["aa", "bb", "cc"]).map (fun p => p.longitude)) ∧
    (wp4.mode = 2 ∨ wp4.mode = 3) ∧
    (wp4.mode = 3 ↔ wp4.altitude.isnan = false) ∧
    wp4.last_fix = some 7 :=
  ((gpsd_C4_update_wifi s4 dist4 ["aa", "bb", "cc"] 7).2.2 wpA [wpB, wpC]
    (by decide) (by decide) (by decide) (Or.inl (by decide))).2 wp4 (by decide)

/-- Claim C6: calculate_locations only returns points whose grid key is not
yet cached; it is nonempty only when the current best position has mode
exactly 2, in which case its members are exactly the cache-missing rounded
center and ring destination points; and it has no duplicates whenever the
sampled raw points are non-NaN (NaN never reaches this code from a valid
fix, and Python's ==-based duplicate filter does not identify NaN points
either). -/
theorem gpsd_C6_calculate_locations (s : GPSDState)
    (dest : PFloat × PFloat → ℕ → ℕ → PFloat × PFloat) (now : ℚ)
    (max_dist : ℕ) :
    (∀ q ∈ s.calculate_locations dest now max_dist,
      acontains s.elevation_data (elevation_key q.1 q.2) = false) ∧
    (s.calculate_locations dest now max_dist ≠ [] →
      ∃ c, (s.get_position now).1 = some c ∧ c.mode = 2) ∧
    (∀ c, (s.get_position now).1 = some c → c.mode = 2 →
      ∀ q, q ∈ s.calculate_locations dest now max_dist ↔
        (q ∈ (raw_points dest c.latitude c.longitude max_dist).map
            (fun p => round_position p.1 p.2) ∧
         acontains s.elevation_data q = false)) ∧
    (∀ c, (s.get_position now).1 = some c →
      (∀ p ∈ raw_points dest c.latitude c.longitude max_dist,
        p.1.isnan = false ∧ p.2.isnan = false) →
      (s.calculate_locations dest now max_dist).Nodup) := by
  have hnone : (s.get_position now).1 = none →
      s.calculate_locations dest now max_dist = [] := by
    intro hc
    unfold GPSDState.calculate_locations
    rw [hc]
  have hne2 : ∀ c, (s.get_position now).1 = some c → c.mode ≠ 2 →
      s.calculate_locations dest now max_dist = [] := by
    intro c hc hm
    unfold GPSDState.calculate_locations
    rw [hc]
    dsimp only
    rw [if_pos hm]
  have hshape : ∀ c, (s.get_position now).1 = some c → c.mode = 2 →
      s.calculate_locations dest now max_dist =
        dedupFirst []
          (((raw_points dest c.latitude c.longitude max_dist).filter
            (fun p => !acontains s.elevation_data (elevation_key p.1 p.2))).map
            (fun p => round_position p.1 p.2)) := by
    intro c hc hm
    unfold GPSDState.calculate_locations
    rw [hc]
    dsimp only
    rw [if_neg (by simp [hm])]
    rw [foldl_append_location]
    rw [List.nil_append]
  refine ⟨?_, ?_, ?_, ?_⟩
  · intro q hq
    rcases hc : (s.get_position now).1 with _ | c
    · rw [hnone hc] at hq
      simp at hq
    · by_cases hm : c.mode = 2
      · rw [hshape c hc hm, mem_dedupFirst] at hq
        rcases hq with hq | hq
        · simp at hq
        · obtain ⟨p, hp, rfl⟩ := List.mem_map.mp hq
          obtain ⟨hpraw, hcond⟩ := List.mem_filter.mp hp
          have hcond2 : acontains s.elevation_data
              (elevation_key p.1 p.2) = false := by
            simpa using hcond
          have hkey : elevation_key (round_position p.1 p.2).1
              (round_position p.1 p.2).2 = elevation_key p.1 p.2 := by
            show round_position (round_position p.1 p.2).1
              (round_position p.1 p.2).2 = round_position p.1 p.2
            exact round_position_idem p.1 p.2
          rw [hkey]
          exact hcond2
      · rw [hne2 c hc hm] at hq
        simp at hq
  · intro hne
    rcases hc : (s.get_position now).1 with _ | c
    · exact absurd (hnone hc) hne
    · by_cases hm : c.mode = 2
      · exact ⟨c, rfl, hm⟩
      · exact absurd (hne2 c hc hm) hne
  · intro c hc hm q
    rw [hshape c hc hm, mem_dedupFirst]
    constructor
    · rintro (hq | hq)
      · simp at hq
      · obtain ⟨p, hp, rfl⟩ := List.mem_map.mp hq
        obtain ⟨hpraw, hcond⟩ := List.mem_filter.mp hp
        refine ⟨List.mem_map.mpr ⟨p, hpraw, rfl⟩, ?_⟩
        simpa [elevation_key] using hcond
    · rintro ⟨hqmap, hqnc⟩
      right
      obtain ⟨p, hpraw, rfl⟩ := List.mem_map.mp hqmap
      refine List.mem_map.mpr ⟨p, ?_, rfl⟩
      refine List.mem_filter.mpr ⟨hpraw, ?_⟩
      simpa [elevation_key] using hqnc
  · intro c hc hnn
    by_cases hm : c.mode = 2
    · rw [hshape c hc hm]
      apply dedupFirst_nodup
      · intro a ha
        obtain ⟨p, hp, rfl⟩ := List.mem_map.mp ha
        obtain ⟨hpraw, _⟩ := List.mem_filter.mp hp
        have hpn := hnn p hpraw
        constructor
        · rw [show (round_position p.1 p.2).1 = p.1.round4 from rfl,
            PFloat.round4_isnan]
          exact hpn.1
        · rw [show (round_position p.1 p.2).2 = p.2.round4 from rfl,
            PFloat.round4_isnan]
          exact hpn.2
      · exact List.nodup_nil
    · rw [hne2 c hc hm]
      exact List.nodup_nil

/-- Claim C6 witness: on a state with a valid 2D position and an empty
cache, the zero-radius sampling returns exactly the rounded center, with no
duplicates. -/
theorem gpsd_C6_witness :
    (s6.calculate_locations dest6 0 0).Nodup ∧
    (PFloat.val 5, PFloat.val 6) ∈ s6.calculate_locations dest6 0 0 := by
  have hc : (s6.get_position 0).1 = some pos6 := by decide
  have h := gpsd_C6_calculate_locations s6 dest6 0 0
  have h5 : roundQ4 5 = 5 := by
    rw [show (5 : ℚ) = ((5 : ℤ) : ℚ) by norm_num, roundQ4_intCast]
  have h6 : roundQ4 6 = 6 := by
    rw [show (6 : ℚ) = ((6 : ℤ) : ℚ) by norm_num, roundQ4_intCast]
  have hmap : (raw_points dest6 pos6.latitude pos6.longitude 0).map
      (fun p => round_position p.1 p.2) = [(PFloat.val 5, PFloat.val 6)] := by
    simp [raw_points, rangeStep, round_position, PFloat.round4, pos6, h5, h6]
  constructor
  · exact h.2.2.2 pos6 hc (by decide)
  · refine (h.2.2.1 pos6 hc (by decide) (PFloat.val 5, PFloat.val 6)).mpr
      ⟨?_, by decide⟩
    rw [hmap]
    exact List.mem_singleton.mpr rfl
